import Mathlib

/-!
Verification development for the Majd platform's routing-and-fallback
orchestration subsystem (backend JavaScript sources).  The JavaScript code is
shallowly embedded: JS values are modelled by an inductive `JsValue`, property
access that can raise a `TypeError` is modelled in `Except`, and the
orchestration / routing / synthesis functions are translated definition by
definition from `src/backend/gemini.js` (class `OrchestrationLayer`),
`src/backend/taskRouter.js` (class `TaskRouter`), the context manager and
response synthesizer modules, and `src/backend/thinkingEngine.js`
(class `ThinkingEngine`).
-/

namespace Majd

/-! ## A model of untyped JavaScript values

Only the features the embedded code uses are modelled: `null`, `undefined`,
booleans, integers (all numbers appearing in the embedded code are integral),
strings, arrays and plain objects.  Property access on `null`/`undefined`
throws a `TypeError`; on every other value it is total (returning `undefined`
for absent properties, and the usual `length` for arrays and strings). -/

inductive JsValue where
  | vNull
  | vUndef
  | vBool (b : Bool)
  | vNum (n : Int)
  | vStr (s : String)
  | vArr (elems : List JsValue)
  | vObj (fields : List (String × JsValue))

inductive JsErr where
  | typeError
deriving Repr, DecidableEq

namespace JsValue

/-- JavaScript truthiness: `null`, `undefined`, `false`, `0` and `""` are
falsy; every other value (including empty arrays and objects) is truthy. -/
def truthy : JsValue → Bool
  | vNull => false
  | vUndef => false
  | vBool b => b
  | vNum n => n != 0
  | vStr s => !s.isEmpty
  | vArr _ => true
  | vObj _ => true

def isString : JsValue → Bool
  | vStr _ => true
  | _ => false

/-- Total property lookup, used only on values known not to be
`null`/`undefined`. -/
def fieldD : JsValue → String → JsValue
  | vObj fields, k => ((fields.find? (fun p => p.1 == k)).map Prod.snd).getD vUndef
  | vArr elems, k => if k == "length" then vNum elems.length else vUndef
  | vStr s, k => if k == "length" then vNum s.length else vUndef
  | _, _ => vUndef

/-- `v[k]`: property access; throws `TypeError` on `null`/`undefined`. -/
def getField : JsValue → String → Except JsErr JsValue
  | vNull, _ => .error .typeError
  | vUndef, _ => .error .typeError
  | v, k => .ok (fieldD v k)

/-- `v[i]` for a numeric index; throws `TypeError` on `null`/`undefined`.
On plain objects `v[0]` looks up the property keyed by the numeric string;
on strings it yields the one-character string. -/
def getIndex : JsValue → Nat → Except JsErr JsValue
  | vNull, _ => .error .typeError
  | vUndef, _ => .error .typeError
  | vArr elems, i => .ok (elems.getD i vUndef)
  | vObj fields, i =>
      .ok (((fields.find? (fun p => p.1 == toString i)).map Prod.snd).getD vUndef)
  | vStr s, i =>
      .ok (match s.toList[i]? with
           | some c => vStr (String.singleton c)
           | none => vUndef)
  | _, _ => .ok vUndef

/-- `Array.prototype.join(",")`, the `ToPrimitive` conversion of a plain
array: elements stringify recursively, with `null`/`undefined` elements
contributing the empty string. -/
def jsJoinElem : JsValue → String
  | vNull => ""
  | vUndef => ""
  | vStr s => s
  | vNum n => toString n
  | vBool b => if b then "true" else "false"
  | vObj _ => "[object Object]"
  | vArr xs => joinList xs
where
  joinList : List JsValue → String
    | [] => ""
    | [x] => jsJoinElem x
    | x :: rest => jsJoinElem x ++ "," ++ joinList rest

/-- `StrWhiteSpace`: the code points `ToNumber` trims from a string. -/
def isJsStrWs (c : Char) : Bool :=
  let n := c.toNat
  n == 0x9 || n == 0xA || n == 0xB || n == 0xC || n == 0xD || n == 0x20 ||
  n == 0xA0 || n == 0x1680 || decide (0x2000 ≤ n ∧ n ≤ 0x200A) ||
  n == 0x2028 || n == 0x2029 || n == 0x202F || n == 0x205F || n == 0x3000 ||
  n == 0xFEFF

def digitsToNat (ds : List Char) : Nat :=
  ds.foldl (fun acc c => acc * 10 + (c.toNat - '0'.toNat)) 0

/-- Whether the decimal value `m × 10^k` is positive after IEEE-754
round-to-nearest-even conversion to a double: positive mantissa, and the
value must exceed `2^(-1075)` — half the smallest subnormal — below or at
which it rounds to `+0` (the tie at exactly `2^(-1075)` goes to the even
candidate `0`).  The comparison is exact integer arithmetic. -/
def decGtZero (m : Nat) (k : Int) : Bool :=
  (m != 0) && (if (0 : Int) ≤ k then true
               else decide (10 ^ (-k).toNat < m * 2 ^ 1075))

/-- The exponent part after `e`/`E`: an optional sign and one or more
digits, consuming the whole remainder; anything else makes the literal
`NaN`. -/
def parseExpAux (ds : List Char) : Option Nat :=
  if ds.isEmpty then none
  else if ds.all Char.isDigit then some (digitsToNat ds) else none

def parseExp : List Char → Option Int
  | '+' :: ds => (parseExpAux ds).map (fun n => (n : Int))
  | '-' :: ds => (parseExpAux ds).map (fun n => -(n : Int))
  | ds => (parseExpAux ds).map (fun n => (n : Int))

/-- Finish a decimal literal after its mantissa digits: either nothing or a
well-formed exponent part; then decide positivity of `mantissa × 10^(exp -
fracLen)`. -/
def afterMantissa (mantissa : List Char) (fracLen : Nat) (rest : List Char) : Bool :=
  match rest with
  | [] => decGtZero (digitsToNat mantissa) (-(fracLen : Int))
  | e :: r =>
    if e == 'e' || e == 'E' then
      match parseExp r with
      | some ex => decGtZero (digitsToNat mantissa) (ex - (fracLen : Int))
      | none => false
    else false

/-- `StrUnsignedDecimalLiteral`: `Infinity`, or decimal digits with an
optional fraction and exponent (at least one digit overall). -/
def unsignedDecGtZero (t : List Char) : Bool :=
  if t == "Infinity".toList then true
  else
    let intDs := t.takeWhile Char.isDigit
    let r1 := t.drop intDs.length
    match r1 with
    | '.' :: r2 =>
        let fracDs := r2.takeWhile Char.isDigit
        let r3 := r2.drop fracDs.length
        if intDs.isEmpty && fracDs.isEmpty then false
        else afterMantissa (intDs ++ fracDs) fracDs.length r3
    | _ => if intDs.isEmpty then false else afterMantissa intDs 0 r1

/-- A non-decimal (`0x`/`0b`/`0o`) literal body is positive iff it is one or
more digits of the radix with at least one nonzero. -/
def radixGtZero (isDig : Char → Bool) (ds : List Char) : Bool :=
  !ds.isEmpty && ds.all isDig && ds.any (fun c => c != '0')

def isHexDigitCh (c : Char) : Bool :=
  c.isDigit || ('a' ≤ c && c ≤ 'f') || ('A' ≤ c && c ≤ 'F')

/-- `ToNumber(string) > 0` per the `StringNumericLiteral` grammar: trim
string whitespace; an empty remainder is `0`; a `-`-signed value is negative
or `NaN` (never positive); `+` admits only an unsigned decimal literal (a
signed hex/binary/octal form is `NaN`); unsigned forms are `Infinity`,
`0x`/`0b`/`0o` radix literals, or a decimal literal. -/
def strGtZero (s : String) : Bool :=
  let t := ((s.toList.dropWhile isJsStrWs).reverse.dropWhile isJsStrWs).reverse
  match t with
  | [] => false
  | '-' :: _ => false
  | '+' :: rest => unsignedDecGtZero rest
  | '0' :: x :: rest =>
      if x == 'x' || x == 'X' then radixGtZero isHexDigitCh rest
      else if x == 'b' || x == 'B' then radixGtZero (fun c => c == '0' || c == '1') rest
      else if x == 'o' || x == 'O' then radixGtZero (fun c => '0' ≤ c && c ≤ '7') rest
      else unsignedDecGtZero t
  | _ => unsignedDecGtZero t

/-- The JavaScript comparison `x > 0` (abstract relational comparison
against the number literal `0`): `ToPrimitive` with number hint — the
`join(",")` string for a plain array, `"[object Object]"` for a plain
object — then `ToNumber`, with `NaN` comparing false.  So `"5" > 0`,
`true > 0` and `["5"] > 0` are true, while `null`, `undefined`, plain
objects and non-numeric strings compare false.  String literals follow the
spec grammar via `strGtZero`, whose underflow cutoff matches IEEE
round-to-nearest-even as required of modern engines; numbers in this
embedding are integral by construction. -/
def gtZero : JsValue → Bool
  | vNum n => 0 < n
  | vBool b => b
  | vStr s => strGtZero s
  | vArr xs => strGtZero (jsJoinElem (vArr xs))
  | vNull => false
  | vUndef => false
  | vObj _ => false

/-- A small renderer standing in for `JSON.stringify`'s output text.  Its
exact text is irrelevant to every theorem below; what matters is that it is a
string for every input value. -/
def renderJson : JsValue → String
  | vNull => "null"
  | vUndef => "null"
  | vBool b => if b then "true" else "false"
  | vNum n => toString n
  | vStr s => "\"" ++ s ++ "\""
  | vArr elems => "[" ++ String.intercalate "," (renderList elems) ++ "]"
  | vObj fields => "\x7b" ++ String.intercalate "," (renderFields fields) ++ "\x7d"
where
  renderList : List JsValue → List String
    | [] => []
    | v :: rest => renderJson v :: renderList rest
  renderFields : List (String × JsValue) → List String
    | [] => []
    | (k, v) :: rest => ("\"" ++ k ++ "\":" ++ renderJson v) :: renderFields rest

/-- `JSON.stringify(v)`: `undefined` for `undefined`, a string for every
other modelled value. -/
def jsonStringify : JsValue → JsValue
  | vUndef => vUndef
  | v => vStr (renderJson v)

end JsValue

open JsValue

/-- JavaScript string coercion (template literals, `+=` on a string);
arrays stringify as their comma-join. -/
def jsCoerceString : JsValue → String
  | vStr s => s
  | vNull => "null"
  | vUndef => "undefined"
  | vBool b => if b then "true" else "false"
  | vNum n => toString n
  | vArr xs => jsJoinElem (.vArr xs)
  | vObj _ => "[object Object]"

/-! ## ResponseSynthesizer: content extraction

Translated from `ResponseSynthesizer.extractContent` and the per-platform
extractors (`extractChatGPTContent` … `extractLocalContent`) in the response
synthesizer module.  Every extractor ends with the shared fallback
`typeof response === 'string' ? response : JSON.stringify(response)`. -/

/-- `typeof response === 'string' ? response : JSON.stringify(response)`. -/
def stringFallback (v : JsValue) : JsValue :=
  if v.isString then v else v.jsonStringify

/-- `response.choices && response.choices.length > 0`, with JavaScript's
short-circuiting `&&` (the `.length` access only happens when `choices` is
truthy, so it cannot throw). -/
def choicesGuard (v : JsValue) : Except JsErr Bool := do
  let choices ← v.getField "choices"
  if choices.truthy then
    let len ← choices.getField "length"
    pure (gtZero len)
  else
    pure false

/-- `ResponseSynthesizer.extractChatGPTContent`. -/
def extractChatGPTContent (v : JsValue) : Except JsErr JsValue := do
  if (← choicesGuard v) then
    let c0 ← (← v.getField "choices").getIndex 0
    let msg ← c0.getField "message"
    msg.getField "content"
  else
    pure (stringFallback v)

/-- `ResponseSynthesizer.extractPerplexityContent`: on a truthy `answer`
field takes `answer.text` and appends a numbered citation list when
`answer.citations` is a non-empty array. -/
def extractPerplexityContent (v : JsValue) : Except JsErr JsValue := do
  let answer ← v.getField "answer"
  if answer.truthy then
    let text ← answer.getField "text"
    let citations ← answer.getField "citations"
    let citGuard ←
      if citations.truthy then do
        let len ← citations.getField "length"
        pure (gtZero len)
      else
        pure false
    if citGuard then
      match citations with
      | vArr cits => do
          let lines ← citationLines 0 cits
          pure (vStr (jsCoerceString text ++ "\n\n**Sources:**\n" ++ lines))
      | _ =>
          -- a non-array `citations` that passed the truthy/length guard has
          -- no `forEach`, so the source throws a `TypeError` here
          .error .typeError
    else
      pure text
  else
    pure (stringFallback v)
where
  /-- `citations.forEach((citation, index) => ...)`, emitting
  `` `${index + 1}. [${citation.title}](${citation.url})\n` `` per entry. -/
  citationLines : Nat → List JsValue → Except JsErr String
    | _, [] => pure ""
    | i, c :: rest => do
        let title ← c.getField "title"
        let url ← c.getField "url"
        let tail ← citationLines (i + 1) rest
        pure (toString (i + 1) ++ ". [" ++ jsCoerceString title ++ "](" ++
          jsCoerceString url ++ ")\n" ++ tail)

/-- `ResponseSynthesizer.extractGeminiContent`:
`response.candidates[0].content.parts[0].text` behind a
`candidates && candidates.length > 0` guard. -/
def extractGeminiContent (v : JsValue) : Except JsErr JsValue := do
  let candidates ← v.getField "candidates"
  let guard ←
    if candidates.truthy then do
      let len ← candidates.getField "length"
      pure (gtZero len)
    else
      pure false
  if guard then
    let c0 ← candidates.getIndex 0
    let content ← c0.getField "content"
    let parts ← content.getField "parts"
    let p0 ← parts.getIndex 0
    p0.getField "text"
  else
    pure (stringFallback v)

/-- `ResponseSynthesizer.extractCopilotContent` (same shape as ChatGPT). -/
def extractCopilotContent (v : JsValue) : Except JsErr JsValue := do
  if (← choicesGuard v) then
    let c0 ← (← v.getField "choices").getIndex 0
    let msg ← c0.getField "message"
    msg.getField "content"
  else
    pure (stringFallback v)

/-- `ResponseSynthesizer.extractDeepSeekContent` (same shape as ChatGPT). -/
def extractDeepSeekContent (v : JsValue) : Except JsErr JsValue := do
  if (← choicesGuard v) then
    let c0 ← (← v.getField "choices").getIndex 0
    let msg ← c0.getField "message"
    msg.getField "content"
  else
    pure (stringFallback v)

/-- `ResponseSynthesizer.extractGrok3Content`:
`response.output && response.output.content` guard. -/
def extractGrok3Content (v : JsValue) : Except JsErr JsValue := do
  let output ← v.getField "output"
  let guard ←
    if output.truthy then do
      let c ← output.getField "content"
      pure c.truthy
    else
      pure false
  if guard then
    (← v.getField "output").getField "content"
  else
    pure (stringFallback v)

/-- `ResponseSynthesizer.extractVertixContent`: `response.content` guard. -/
def extractVertixContent (v : JsValue) : Except JsErr JsValue := do
  let content ← v.getField "content"
  if content.truthy then
    pure content
  else
    pure (stringFallback v)

/-- `ResponseSynthesizer.extractLocalContent`: `response.output` guard. -/
def extractLocalContent (v : JsValue) : Except JsErr JsValue := do
  let output ← v.getField "output"
  if output.truthy then
    pure output
  else
    pure (stringFallback v)

/-- `ResponseSynthesizer.extractContent`: platform switch dispatching to the
per-platform extractor; the default branch applies the shared string
fallback directly. -/
def extractContent (v : JsValue) (platform : String) : Except JsErr JsValue :=
  match platform with
  | "chatgpt" => extractChatGPTContent v
  | "perplexity" => extractPerplexityContent v
  | "gemini" => extractGeminiContent v
  | "copilot" => extractCopilotContent v
  | "deepseek" => extractDeepSeekContent v
  | "grok3" => extractGrok3Content v
  | "vertix" => extractVertixContent v
  | "local" => extractLocalContent v
  | _ => pure (stringFallback v)

/-- The top-level structural guard each platform's extractor tests before
descending into nested fields (total: evaluated with the throw-free `fieldD`,
which agrees with the extractors' own guarded access on non-`null`,
non-`undefined` input).  The default platform branch has no guard. -/
def extractGuard (v : JsValue) (platform : String) : Bool :=
  match platform with
  | "chatgpt" => (v.fieldD "choices").truthy && gtZero ((v.fieldD "choices").fieldD "length")
  | "perplexity" => (v.fieldD "answer").truthy
  | "gemini" => (v.fieldD "candidates").truthy && gtZero ((v.fieldD "candidates").fieldD "length")
  | "copilot" => (v.fieldD "choices").truthy && gtZero ((v.fieldD "choices").fieldD "length")
  | "deepseek" => (v.fieldD "choices").truthy && gtZero ((v.fieldD "choices").fieldD "length")
  | "grok3" => (v.fieldD "output").truthy && ((v.fieldD "output").fieldD "content").truthy
  | "vertix" => (v.fieldD "content").truthy
  | "local" => (v.fieldD "output").truthy
  | _ => false

/-! ## ContextManager: conversation turns and context-window trimming

Translated from the context manager module (`ContextManager` class):
`contextWindowSizes`, `optimizeContext` and the token estimator it closes
over.  Token counts are exact rationals (`1.3` is `13/10`). -/

structure Turn where
  userInput : String
  aiResponse : String
  isSystemMessage : Bool := false
deriving Repr, DecidableEq

/-- `\s` for the `split(/\s+/)` estimator. -/
def isWs (c : Char) : Bool :=
  c == ' ' || c == '\t' || c == '\n' || c == '\r'

/-- Number of maximal whitespace runs in a character list (the accumulator
records whether the previous character was whitespace). -/
def wsRunsAux : Bool → List Char → Nat
  | _, [] => 0
  | prevWs, c :: rest =>
    if isWs c then (if prevWs then 0 else 1) + wsRunsAux true rest
    else wsRunsAux false rest

/-- `text.split(/\s+/).length`: one more piece than there are separator
matches (leading/trailing whitespace contributes empty pieces, as in
JavaScript). -/
def splitWsLen (s : String) : Nat :=
  wsRunsAux false s.toList + 1

/-- `estimateTokens` from `optimizeContext`:
`text ? text.split(/\s+/).length * 1.3 : 0` (the only falsy string is `""`).
-/
def estimateTokens (s : String) : ℚ :=
  if s.isEmpty then 0 else (splitWsLen s : ℚ) * (13 / 10)

def turnTokens (t : Turn) : ℚ :=
  estimateTokens t.userInput + estimateTokens t.aiResponse

/-- The backward loop of `ContextManager.optimizeContext`, processing the
reversed context (most recent first) and stopping at the first turn that
would push the running total past `contextWindowSize * 0.9`. -/
def optimizeAux (contextWindowSize : ℚ) : List Turn → ℚ → List Turn
  | [], _ => []
  | t :: rest, totalTokens =>
    if totalTokens + turnTokens t > contextWindowSize * (9 / 10) then []
    else t :: optimizeAux contextWindowSize rest (totalTokens + turnTokens t)

/-- `ContextManager.optimizeContext`: walk from the most recent turn
backwards, `unshift`-ing kept turns so the result stays in chronological
order. -/
def optimizeContext (context : List Turn) (contextWindowSize : ℚ) : List Turn :=
  (optimizeAux contextWindowSize context.reverse 0).reverse

/-- `ContextManager.contextWindowSizes`, with the
`this.contextWindowSizes[platform] || 32000` default applied at lookup. -/
def contextWindowSizes (platform : String) : ℚ :=
  match platform with
  | "chatgpt" => 128000
  | "perplexity" => 32000
  | "gemini" => 1000000
  | "copilot" => 64000
  | "deepseek" => 128000
  | "grok3" => 128000
  | "vertix" => 32000
  | "local" => 32000
  | _ => 32000

/-! ## TaskRouter: classification and platform selection

Translated from `taskRouter.js` (class `TaskRouter`): the rule-based
classifier, the ML-or-rules `classifyTask` (its learned classifier is an
external model, modelled as an oracle), `getPlatformForTask` and
`routeRequest`. -/

/-- `userInput.toLowerCase()`, modelled character-wise. -/
def lowered (s : String) : List Char :=
  s.toList.map Char.toLower

/-- `input.includes(sub)`. -/
def containsSub (s : List Char) (sub : String) : Bool :=
  s.tails.any (fun t => sub.toList.isPrefixOf t)

/-- The backquote character, `` ` ``. -/
def backquote : Char := Char.ofNat 96

/-- The tail of the regex `/```[a-z]*\n/` after the three backquotes:
zero or more of `[a-z]`, then a newline. -/
def fenceTail : List Char → Bool
  | [] => false
  | c :: rest =>
    if c == '\n' then true
    else if 'a' ≤ c && c ≤ 'z' then fenceTail rest
    else false

def fenceAt : List Char → Bool
  | a :: b :: c :: rest => a == backquote && b == backquote && c == backquote && fenceTail rest
  | _ => false

/-- `input.match(/```[a-z]*\n/g)` is truthy iff the pattern occurs
somewhere. -/
def hasCodeFence (s : List Char) : Bool :=
  s.tails.any fenceAt

/-- `TaskRouter.ruleBasedClassification` (the context parameter is unused in
the source as well). -/
def ruleBasedClassification (userInput : String) (_context : List Turn) : String :=
  let input := lowered userInput
  if containsSub input "code" || containsSub input "function" ||
     containsSub input "programming" || containsSub input "debug" ||
     containsSub input "algorithm" || hasCodeFence input then
    "code"
  else if containsSub input "research" || containsSub input "find information" ||
     containsSub input "search for" || containsSub input "look up" ||
     containsSub input "what is" || containsSub input "tell me about" then
    "research"
  else if containsSub input "solve" || containsSub input "calculate" ||
     containsSub input "math" || containsSub input "logic" ||
     containsSub input "prove" || containsSub input "explain why" then
    "reasoning"
  else if containsSub input "write a" || containsSub input "create a" ||
     containsSub input "generate a" || containsSub input "design" ||
     containsSub input "story" || containsSub input "poem" then
    "creative"
  else if containsSub input "analyze" || containsSub input "data" ||
     containsSub input "trends" || containsSub input "statistics" ||
     containsSub input "graph" || containsSub input "chart" then
    "data_analysis"
  else if containsSub input "industry" || containsSub input "sector" ||
     containsSub input "specialized" || containsSub input "expert" ||
     containsSub input "professional" then
    "domain_expertise"
  else
    "general"

/-- Behaviour of the injected `DeepseekClassifier` on the current request:
never initialized (`isInitialized` false), a classification result with a
confidence, or a thrown error.  The classifier is an external ML model, so it
enters the embedding as an oracle. -/
inductive MLOutcome where
  | unavailable
  | result (taskType : String) (confidence : ℚ)
  | failure (msg : String)
deriving Repr, DecidableEq

/-- External collaborators of one request: the learned classifier, its
confidence threshold (`config.ML_CONFIDENCE_THRESHOLD`), the stored
conversation history (`vectorDb.getConversationHistory`), each platform
module's `generateResponse` outcome, and the request wall-clock timestamp. -/
structure Env where
  ml : MLOutcome
  threshold : ℚ
  history : List Turn
  provider : String → Except String JsValue
  now : String

/-- `ContextManager.getContext` for a request without semantic search: fetch
the stored history (external, `Env.history`) and trim it to the platform's
window.  Its own catch returns `[]`, which cannot trigger here. -/
def getContext (env : Env) (platform : String) : List Turn :=
  optimizeContext env.history (contextWindowSizes platform)

/-- The try-block of `TaskRouter.classifyTask`: context fetch (the
platform defaults to `chatgpt` when no options are passed), then the learned
classifier when initialized and confident, else the rule engine.  A thrown
classifier error propagates out of the try-block. -/
def classifyTaskE (env : Env) (userInput _userId : String) : Except String String := do
  let context := getContext env "chatgpt"
  match env.ml with
  | .unavailable => pure (ruleBasedClassification userInput context)
  | .result t c =>
      if c > env.threshold then pure t
      else pure (ruleBasedClassification userInput context)
  | .failure m => throw m

/-- `TaskRouter.classifyTask`: the catch branch maps any error to the
`general` task type. -/
def classifyTask (env : Env) (userInput userId : String) : String :=
  match classifyTaskE env userInput userId with
  | .ok t => t
  | .error _ => "general"

structure PlatformTriple where
  primary : String
  secondary : String
  fallback : String
deriving Repr, DecidableEq

/-- `TaskRouter.platformMapping`, with the
`platformMapping[taskType] || platformMapping[GENERAL]` default applied at
lookup. -/
def platformMapping (taskType : String) : PlatformTriple :=
  match taskType with
  | "research" => ⟨"perplexity", "gemini", "local"⟩
  | "reasoning" => ⟨"deepseek", "gemini", "local"⟩
  | "code" => ⟨"copilot", "deepseek", "local"⟩
  | "creative" => ⟨"chatgpt", "gemini", "local"⟩
  | "data_analysis" => ⟨"grok3", "gemini", "local"⟩
  | "domain_expertise" => ⟨"vertix", "chatgpt", "local"⟩
  | _ => ⟨"chatgpt", "deepseek", "local"⟩

structure UserPreferences where
  preferredPlatform : Option String := none
deriving Repr, DecidableEq

/-- The option fields the embedded code reads (absent fields are `none` /
`false`, matching `undefined`'s truthiness). -/
structure Options where
  enableFallback : Option Bool := none
  isFallback : Bool := false
  isFallbackSecondary : Bool := false
  overridePlatform : Option String := none
  userPreferences : Option UserPreferences := none
  optimizeCost : Bool := false
  isPremiumUser : Bool := false
deriving Repr, DecidableEq

/-- `options.userPreferences && options.userPreferences.preferredPlatform`
(truthy only for a present, non-empty string). -/
def userPrefOverride (opts : Options) : Option String :=
  match opts.userPreferences with
  | some prefs =>
      match prefs.preferredPlatform with
      | some p => if p.isEmpty then none else some p
      | none => none
  | none => none

/-- The result shape of `TaskRouter.getPlatformForTask`: fields the
source leaves off a branch are `undefined` (`none` / `false`). -/
structure PlatformInfo where
  platform : String
  taskType : String
  secondary : Option String := none
  fallback : Option String := none
  isUserPreferred : Bool := false
  isCostOptimized : Bool := false
deriving Repr, DecidableEq

/-- `TaskRouter.getPlatformForTask`. -/
def getPlatformForTask (taskType : String) (opts : Options) : PlatformInfo :=
  let platformMap := platformMapping taskType
  match userPrefOverride opts with
  | some p => { platform := p, taskType := taskType, isUserPreferred := true }
  | none =>
    if opts.optimizeCost && !opts.isPremiumUser then
      { platform := platformMap.fallback, taskType := taskType, isCostOptimized := true }
    else
      { platform := platformMap.primary, taskType := taskType,
        secondary := some platformMap.secondary, fallback := some platformMap.fallback }

structure RoutingDecision where
  userId : String
  userInput : String
  taskType : String
  platform : String
  secondary : Option String := none
  fallback : Option String := none
  timestamp : String
  isErrorFallback : Bool := false
deriving Repr, DecidableEq

/-- `TaskRouter.routeRequest`.  The try-block never throws in this embedding
(`classifyTask` and `getPlatformForTask` are total), so the catch branch
returning the default `chatgpt` routing with `isErrorFallback` is unreachable
and not modelled. -/
def routeRequest (env : Env) (userInput userId : String) (opts : Options) : RoutingDecision :=
  let taskType := classifyTask env userInput userId
  let platformInfo := getPlatformForTask taskType opts
  { userId := userId, userInput := userInput, taskType := taskType,
    platform := platformInfo.platform, secondary := platformInfo.secondary,
    fallback := platformInfo.fallback, timestamp := env.now }

/-! ## ThinkingEngine: thinking prompts and prompt enhancement

Translated from `thinkingEngine.js` (class `ThinkingEngine`).  The capture of
that file is truncated after `enhanceGrok3Prompt`, so the tail helpers
(`generateThinkingInstructions`, the thinking-process extraction/formatting,
and the `findLastIndex` helper the enhancers call) are modelled from the
spec where marked. -/

/-- `this.reasoningSteps[key]`: uppercase constant name to step label. -/
def reasoningStepValue (key : String) : String :=
  match key with
  | "PROBLEM_UNDERSTANDING" => "problem_understanding"
  | "INFORMATION_GATHERING" => "information_gathering"
  | "APPROACH_SELECTION" => "approach_selection"
  | "STEP_BY_STEP_REASONING" => "step_by_step_reasoning"
  | "VERIFICATION" => "verification"
  | "CONCLUSION" => "conclusion"
  | _ => ""

/-- `this.reasoningTemplates[key]`: the table is keyed by the lowercase step
labels, while `generateThinkingPrompts` looks it up with the uppercase
constant names — so those lookups yield `undefined` (`none`), which this
total lookup reproduces. -/
def reasoningTemplate (key : String) : Option String :=
  match key with
  | "problem_understanding" => some "Let me understand the problem: {problem}"
  | "information_gathering" => some "Relevant information I need to consider: {information}"
  | "approach_selection" => some "I'll approach this by: {approach}"
  | "step_by_step_reasoning" => some "Step {step_number}: {step_content}"
  | "verification" => some "Let me verify my solution: {verification}"
  | "conclusion" => some "Therefore, the answer is: {conclusion}"
  | _ => none

/-- `this.taskTypeReasoningMap[taskType] || this.taskTypeReasoningMap['general']`
(the stored lists hold the uppercase constant names). -/
def taskTypeReasoningMap (taskType : String) : List String :=
  match taskType with
  | "research" => ["PROBLEM_UNDERSTANDING", "INFORMATION_GATHERING", "APPROACH_SELECTION", "STEP_BY_STEP_REASONING", "CONCLUSION"]
  | "reasoning" => ["PROBLEM_UNDERSTANDING", "APPROACH_SELECTION", "STEP_BY_STEP_REASONING", "VERIFICATION", "CONCLUSION"]
  | "code" => ["PROBLEM_UNDERSTANDING", "APPROACH_SELECTION", "STEP_BY_STEP_REASONING", "VERIFICATION", "CONCLUSION"]
  | "creative" => ["PROBLEM_UNDERSTANDING", "APPROACH_SELECTION", "STEP_BY_STEP_REASONING", "CONCLUSION"]
  | "data_analysis" => ["PROBLEM_UNDERSTANDING", "INFORMATION_GATHERING", "APPROACH_SELECTION", "STEP_BY_STEP_REASONING", "VERIFICATION", "CONCLUSION"]
  | "domain_expertise" => ["PROBLEM_UNDERSTANDING", "INFORMATION_GATHERING", "APPROACH_SELECTION", "STEP_BY_STEP_REASONING", "CONCLUSION"]
  | _ => ["PROBLEM_UNDERSTANDING", "APPROACH_SELECTION", "STEP_BY_STEP_REASONING", "CONCLUSION"]

/-- `ThinkingEngine.generateSystemPrompt`. -/
def generateSystemPrompt (taskType : String) : String :=
  let basePrompt := "You are Majd, an advanced AI assistant that shows explicit reasoning and thinking processes. "
  let taskSpecificPrompt :=
    match taskType with
    | "research" => "For this research task, show your information gathering process, evaluate sources, and synthesize findings. Cite sources when available."
    | "reasoning" => "For this reasoning task, break down the problem, show each logical step, verify your work, and explain your conclusion."
    | "code" => "For this coding task, analyze the requirements, plan your approach, implement the solution step by step, and test your code."
    | "creative" => "For this creative task, explain your inspiration, outline your approach, and show how you developed the creative elements."
    | "data_analysis" => "For this data analysis task, describe your methodology, show your analysis process, verify your findings, and present conclusions."
    | "domain_expertise" => "For this domain-specific task, apply specialized knowledge, explain industry-specific concepts, and provide expert insights."
    | _ => "Break down your thinking process into clear steps, showing how you arrive at your answer."
  let thinkingStylePrompt := "Always make your reasoning explicit using a step-by-step approach. First understand the problem, then gather relevant information, select an approach, work through the solution methodically, verify your answer when appropriate, and provide a clear conclusion."
  basePrompt ++ taskSpecificPrompt ++ " " ++ thinkingStylePrompt

structure ThinkingPrompts where
  systemPrompt : String
  reasoningSteps : List String
  templates : List (String × Option String)
deriving Repr, DecidableEq

/-- `ThinkingEngine.generateThinkingPrompts`. -/
def generateThinkingPrompts (taskType _userInput : String) : ThinkingPrompts :=
  let reasoningStepKeys := taskTypeReasoningMap taskType
  { systemPrompt := generateSystemPrompt taskType,
    reasoningSteps := reasoningStepKeys.map reasoningStepValue,
    templates := reasoningStepKeys.map (fun step => (reasoningStepValue step, reasoningTemplate step)) }

/-- Modelled from the spec: `ThinkingEngine.generateThinkingInstructions` is
in the truncated tail of the `thinkingEngine.js` capture.  The spec says the
reasoning-phase instructions (drawn from the spec's fixed phase vocabulary)
are what gets appended to the last user-role message; no theorem below
depends on this string's exact contents. -/
def generateThinkingInstructions (tp : ThinkingPrompts) : String :=
  "Please make your reasoning explicit, using these phases: " ++
    String.intercalate ", " tp.reasoningSteps

structure Message where
  role : String
  content : String
deriving Repr, DecidableEq

/-- A `messages`-array prompt, as produced by
`ContextManager.formatForChatGPT` and consumed by
`ThinkingEngine.enhanceChatGPTPrompt`. -/
structure ChatPrompt where
  messages : List Message
deriving Repr, DecidableEq

/-- The system-message half of `enhanceChatGPTPrompt`: find the first message
with role `system`; if found, prepend the thinking system prompt to its
content (`` `${sp} ${old}` ``); otherwise `unshift` a fresh system message.
(The `JSON.parse(JSON.stringify(...))` clone is the identity in a pure
embedding.) -/
def prependSysFirst (sp : String) : List Message → List Message
  | [] => []
  | m :: rest =>
    if m.role == "system" then
      { role := m.role, content := sp ++ " " ++ m.content } :: rest
    else
      m :: prependSysFirst sp rest

def enhanceSystemStep (sp : String) (msgs : List Message) : List Message :=
  if msgs.any (fun m => m.role == "system") then prependSysFirst sp msgs
  else { role := "system", content := sp } :: msgs

/-- The user-message half of `enhanceChatGPTPrompt`: append the thinking
instructions to the content of the *last* message with role `user`
(`findLastIndex` is in the truncated tail of the capture; it is the standard
last-index search its call sites require). -/
def appendToLastUser (ti : String) : List Message → List Message
  | [] => []
  | m :: rest =>
    if rest.any (fun x => x.role == "user") then
      m :: appendToLastUser ti rest
    else if m.role == "user" then
      { role := m.role, content := m.content ++ "\n\n" ++ ti } :: rest
    else
      m :: rest

/-- `ThinkingEngine.enhanceChatGPTPrompt`.  (`enhancePerplexityPrompt`,
`enhanceCopilotPrompt`, `enhanceDeepSeekPrompt` and `enhanceGrok3Prompt` are
verbatim copies of this function in the source, and `enhanceGeminiPrompt`
runs the same algorithm on the `contents[].parts[]` shape;
`enhancePromptWithThinking` dispatches to it for `chatgpt` and as the
default branch.) -/
def enhanceChatGPTPrompt (tp : ThinkingPrompts) (platformPrompt : ChatPrompt) : ChatPrompt :=
  { messages :=
      appendToLastUser (generateThinkingInstructions tp)
        (enhanceSystemStep tp.systemPrompt platformPrompt.messages) }

/-! ## ResponseSynthesizer: response processing and merging

`ProcessedResponse` is the object shape built by
`ResponseSynthesizer.processResponse` / `mergeResponses` and by the catch
branches of `OrchestrationLayer.processRequest`; fields a given branch does
not set are `undefined` (`none`).  Every claim below runs with the default
response format, so only the `markdown` branch of `formatResponse` is
embedded (no claim exercises the `text`/`html`/`json` branches). -/

structure ProcessedResponse where
  content : String
  platform : Option String := none
  taskType : Option String := none
  timestamp : String
  userId : String
  format : Option String := none
  thinkingProcess : Option String := none
  formattedResponse : String := ""
  error : Option String := none
  originalError : Option String := none
  sources : List (Option String × Option String) := []
deriving Repr, DecidableEq

/-- `x || default` on an optional string (empty strings are falsy). -/
def jsOr (o : Option String) (d : String) : String :=
  match o with
  | some s => if s.isEmpty then d else s
  | none => d

/-- `ResponseSynthesizer.generateAttribution`. -/
def generateAttribution (platform : Option String) : String :=
  match platform with
  | none => ""
  | some p =>
    if p.isEmpty then ""
    else
      match p with
      | "chatgpt" => "*Response powered by ChatGPT*"
      | "perplexity" => "*Response powered by Perplexity AI*"
      | "gemini" => "*Response powered by Google Gemini*"
      | "copilot" => "*Response powered by GitHub Copilot*"
      | "deepseek" => "*Response powered by DeepSeek*"
      | "grok3" => "*Response powered by Grok3*"
      | "vertix" => "*Response powered by Vertix*"
      | "local" => "*Response powered by Majd local models*"
      | _ => ""

/-- `ResponseSynthesizer.formatMarkdown` with the default thinking position
(`after`; no claim passes `thinkingPosition`). -/
def formatMarkdown (content thinking attribution : String) : String :=
  let md := content
  let md := if !thinking.isEmpty then md ++ "\n\n" ++ thinking else md
  if !attribution.isEmpty then md ++ "\n\n" ++ attribution else md

/-- Modelled from the spec: `ThinkingEngine.extractThinkingProcess` is in the
truncated tail of the `thinkingEngine.js` capture.  Spec: the reasoning trace
is recovered by locating the injected reasoning-phase markers inside the
extracted text; absent markers mean no trace.  No theorem below depends on
this result. -/
def extractThinkingProcess (content : String) (tp : ThinkingPrompts) : Option String :=
  if tp.reasoningSteps.any (fun s => containsSub content.toList s) then some content
  else none

/-- Modelled from the spec: `ThinkingEngine.formatThinkingProcess` is in the
truncated tail of the `thinkingEngine.js` capture.  Spec: the markdown format
renders the reasoning trace as a block next to the content.  No theorem
below depends on this string. -/
def formatThinkingProcess (thinking : String) : String :=
  "**Thinking process:**\n\n" ++ thinking

/-- The `formatResponse` call made by `processResponse` for the default
`markdown` format: attribution only when requested (note `options.platform`
is never set on this path, so the attribution is empty), thinking block when
present and requested. -/
def formatResponseMd (content : String) (thinkingProcess : Option String)
    (includeThinking : Bool) (platform : Option String) (includeAttribution : Bool) : String :=
  let attribution := if includeAttribution then generateAttribution platform else ""
  let thinking :=
    match thinkingProcess with
    | some t => if includeThinking then formatThinkingProcess t else ""
    | none => ""
  formatMarkdown content thinking attribution

/-- `ResponseSynthesizer.processResponse` as called by
`OrchestrationLayer.processRequest` (options `format: 'markdown'`,
`includeThinking/includeAttribution: true`, `extractThinking: true`).  The
only throwing operation in its try-block is `extractContent`; its catch
returns the canned processing-error response. -/
def processResponse (raw : JsValue) (reqPlatform reqTaskType reqUserId : String)
    (tp : ThinkingPrompts) (now : String) : ProcessedResponse :=
  match extractContent raw reqPlatform with
  | .ok contentV =>
      let content := jsCoerceString contentV
      let thinkingProcess := extractThinkingProcess content tp
      { content := content, platform := some reqPlatform, taskType := some reqTaskType,
        timestamp := now, userId := reqUserId, format := some "markdown",
        thinkingProcess := thinkingProcess,
        formattedResponse := formatResponseMd content thinkingProcess true none true }
  | .error _ =>
      { content := "I encountered an issue processing the response. Please try again.",
        platform := some reqPlatform, taskType := some reqTaskType,
        timestamp := now, userId := reqUserId, format := some "markdown",
        error := some "TypeError",
        formattedResponse := "I encountered an issue processing the response. Please try again." }

/-- Modelled from the spec: the bodies of `mergeSequential`,
`mergeBestFirst` and `mergeTaskSpecific` are in the truncated tail of the
response synthesizer capture.  Spec: `sequential` concatenates each response
in order under a header naming its source; `best_first` orders non-error
responses first; `task_specific` and unrecognized strategies degrade to
sequential semantics.  No theorem below depends on the merged text. -/
def mergeSequentialContent (responses : List ProcessedResponse) : String :=
  String.intercalate "\n\n"
    (responses.map (fun r => "## Response from " ++ jsOr r.platform "unknown" ++ "\n\n" ++ r.content))

def mergeStrategyContent (strategy : String) (responses : List ProcessedResponse) : String :=
  match strategy with
  | "best_first" =>
      mergeSequentialContent
        (responses.filter (fun r => r.error.isNone) ++ responses.filter (fun r => !r.error.isNone))
  | _ => mergeSequentialContent responses

/-- `ResponseSynthesizer.mergeResponses` as called by
`processMultiPlatformRequest` (format `markdown`).  An empty input list makes
the try-block throw `No responses to merge`, which its own catch turns into
the canned merge-error response; a single response is returned unchanged;
otherwise the merged object is built (note: it carries no `error` field). -/
def mergeResponses (responses : List ProcessedResponse) (mergeStrategy : String)
    (now : String) : ProcessedResponse :=
  match responses with
  | [] =>
      { content := "I encountered an issue merging the responses. Please try again.",
        platform := some "merged", taskType := some "unknown",
        timestamp := now, userId := "unknown", format := some "markdown",
        error := some "No responses to merge",
        formattedResponse := "I encountered an issue merging the responses. Please try again." }
  | [r] => r
  | r0 :: rest =>
      let content := mergeStrategyContent mergeStrategy (r0 :: rest)
      { content := content, platform := some "merged", taskType := r0.taskType,
        timestamp := now, userId := r0.userId, format := some "markdown",
        sources := (r0 :: rest).map (fun r => (r.platform, r.taskType)),
        formattedResponse := formatMarkdown content "" "" }

/-! ## OrchestrationLayer

Translated from `gemini.js` (class `OrchestrationLayer`): `getPlatformModule`,
`processRequest`, `handleFallback` and `processMultiPlatformRequest`.  Each
function additionally returns the list of platforms whose `generateResponse`
was actually invoked, in call order — the instrumentation the invariant
claims quantify over.  Wall-clock metrics (`processingTime`) are not
modelled. -/

def providerPlatforms : List String :=
  ["chatgpt", "perplexity", "gemini", "copilot", "deepseek", "grok3", "vertix", "local"]

/-- `OrchestrationLayer.getPlatformModule`: the static `platformModules` map;
unknown platform names yield `undefined` (`none`). -/
def getPlatformModule (platform : String) : Option Unit :=
  if providerPlatforms.contains platform then some () else none

/-- The try-block of `OrchestrationLayer.processRequest` up to the provider
call.  Steps 2–5 (context fetch, thinking-prompt generation, per-platform
context formatting, prompt enhancement) are total and feed only the provider
call, which is the external oracle `Env.provider` keyed by platform; steps
7–8 (`processResponse`, `saveContext`) cannot throw.  The returned list
records the provider invocation, if one happened. -/
def attemptRequest (env : Env) (userInput userId : String) (opts : Options) :
    Except String ProcessedResponse × List String :=
  let routingInfo := routeRequest env userInput userId opts
  let tp := generateThinkingPrompts routingInfo.taskType userInput
  match getPlatformModule routingInfo.platform with
  | none => (.error ("Platform module not found for " ++ routingInfo.platform), [])
  | some _ =>
    match env.provider routingInfo.platform with
    | .error e => (.error e, [routingInfo.platform])
    | .ok raw =>
        (.ok (processResponse raw routingInfo.platform routingInfo.taskType userId tp env.now),
         [routingInfo.platform])

/-- The terminal catch branch of `processRequest` (fallback disabled or
already tried). -/
def terminalErrorResponse (e : String) (now uid : String) : ProcessedResponse :=
  { content := "I encountered an issue processing your request. Please try again.",
    formattedResponse := "I encountered an issue processing your request. Please try again.",
    error := some e, timestamp := now, userId := uid }

/-- `handleFallback`'s platform selection: the routed `fallback` once the
secondary has been consumed, else the routed `secondary`. -/
def fallbackPlatformChoice (routingInfo : RoutingDecision) (opts : Options) : Option String :=
  if opts.isFallbackSecondary then routingInfo.fallback else routingInfo.secondary

/-- `OrchestrationLayer.processRequest`.  On an error from the try-block,
when `options.enableFallback !== false && !options.isFallback`, the catch
delegates to `handleFallback`, whose body (re-route, pick the fallback
platform, recurse with `isFallback: true`, flipped `isFallbackSecondary` and
`overridePlatform` set) is inlined in the recursive case.  The source
recursion is bounded by the `isFallback` flag (the recursive call sets it,
and the guard requires it clear); the explicit hop budget below makes that
bound structural, and `processRequest` starts it at `2`, which the flag
guarantees is never exhausted (the budget-0 branch is unreachable). -/
def processRequestFuel (env : Env) (userInput userId : String) :
    Nat → Options → ProcessedResponse × List String
  | 0, _ => (terminalErrorResponse "unreachable" env.now userId, [])
  | budget + 1, opts =>
    match attemptRequest env userInput userId opts with
    | (.ok resp, tr) => (resp, tr)
    | (.error e, tr) =>
      if opts.enableFallback ≠ some false ∧ opts.isFallback = false then
        let routingInfo := routeRequest env userInput userId opts
        let fb := fallbackPlatformChoice routingInfo opts
        let r2 := processRequestFuel env userInput userId budget
          { opts with isFallback := true,
                      isFallbackSecondary := !opts.isFallbackSecondary,
                      overridePlatform := fb }
        (r2.1, tr ++ r2.2)
      else
        (terminalErrorResponse e env.now userId, tr)

def processRequest (env : Env) (userInput userId : String) (opts : Options) :
    ProcessedResponse × List String :=
  processRequestFuel env userInput userId 2 opts

/-- `OrchestrationLayer.handleFallback` as a standalone function (its body is
the block inlined in `processRequest` above).  Its own catch branch (the
"fallback options also failed" response) is unreachable in this embedding:
`routeRequest` and `processRequest` are total. -/
def handleFallback (env : Env) (userInput userId : String) (_err : String) (opts : Options) :
    ProcessedResponse × List String :=
  let routingInfo := routeRequest env userInput userId opts
  let fb := fallbackPlatformChoice routingInfo opts
  processRequest env userInput userId
    { opts with isFallback := true,
                isFallbackSecondary := !opts.isFallbackSecondary,
                overridePlatform := fb }

/-- `OrchestrationLayer.processMultiPlatformRequest`.  Per branch it calls
`processRequest` with `overridePlatform` set to the branch's platform and
`enableFallback: false`.  `processRequest` never throws in this embedding
(it returns error-shaped responses instead), so the per-branch catch with
its "continue with other platforms" skip never fires and every branch result
is pushed; the merge strategy is the `options.mergeStrategy || 'task_specific'`
default, and the surrounding try/catch is likewise unreachable. -/
def processMultiPlatformRequest (env : Env) (userInput userId : String)
    (platforms : List String) (opts : Options) : ProcessedResponse × List String :=
  let _routingInfo := routeRequest env userInput userId opts
  let results := platforms.map (fun p =>
    processRequest env userInput userId
      { opts with overridePlatform := some p, enableFallback := some false })
  let merged := mergeResponses (results.map Prod.fst) "task_specific" env.now
  (merged, (results.map Prod.snd).flatten)

/-- With `isFallback` set, `processRequestFuel` cannot take the fallback
branch, whatever (positive) budget it has. -/
theorem processRequestFuel_isFallback_true (env : Env) (userInput userId : String)
    (m : Nat) (opts : Options) (h : opts.isFallback = true) :
    processRequestFuel env userInput userId (m + 1) opts =
      (match attemptRequest env userInput userId opts with
       | (.ok resp, tr) => (resp, tr)
       | (.error e, tr) => (terminalErrorResponse e env.now userId, tr)) := by
  unfold processRequestFuel
  cases attemptRequest env userInput userId opts with
  | mk r tr =>
    cases r with
    | ok resp => rfl
    | error e =>
      have hcond : ¬(opts.enableFallback ≠ some false ∧ opts.isFallback = false) := by
        intro hc
        rw [h] at hc
        exact absurd hc.2 (by simp)
      simp [hcond]

/-- The hop budget is headroom, not semantics: any budget of at least `2`
gives the behaviour of `processRequest`, because the recursive hop runs with
`isFallback` set and therefore never recurses further. -/
theorem processRequestFuel_budget_irrelevant (env : Env) (userInput userId : String)
    (opts : Options) (n : Nat) :
    processRequestFuel env userInput userId (n + 2) opts = processRequest env userInput userId opts := by
  unfold processRequest
  unfold processRequestFuel
  cases attemptRequest env userInput userId opts with
  | mk r tr =>
    cases r with
    | ok resp => rfl
    | error e =>
      simp only []
      split
      · have h1 := processRequestFuel_isFallback_true env userInput userId n
          { opts with isFallback := true,
                      isFallbackSecondary := !opts.isFallbackSecondary,
                      overridePlatform := fallbackPlatformChoice (routeRequest env userInput userId opts) opts }
          rfl
        have h2 := processRequestFuel_isFallback_true env userInput userId 0
          { opts with isFallback := true,
                      isFallbackSecondary := !opts.isFallbackSecondary,
                      overridePlatform := fallbackPlatformChoice (routeRequest env userInput userId opts) opts }
          rfl
        simp only [h1, h2]
      · rfl

/-! ## Fixtures used by the concrete evaluations below -/

/-- An environment whose learned classifier is uninitialized and in which
every provider invocation fails with `boom`. -/
def cenvFail : Env :=
  { ml := .unavailable, threshold := 7 / 10, history := [],
    provider := fun _ => .error "boom", now := "T0" }

/-- A well-formed `choices[0].message.content` provider payload. -/
def okChatRaw : JsValue :=
  .vObj [("choices", .vArr [.vObj [("message", .vObj [("content", .vStr "ok")])]])]

/-- As `cenvFail`, but every provider invocation succeeds. -/
def cenvOk : Env := { cenvFail with provider := fun _ => .ok okChatRaw }

/-- Options carrying a user-preferred platform outside the configured set. -/
def prefOpts : Options :=
  { userPreferences := some { preferredPlatform := some "notaplatform" } }

/-! ## Claim theorems -/

/-- C1: the claim says no provider platform is invoked more than once per
logical request across all fallback hops.  The code violates it: with every
provider failing, the request `"hello"` (routed to `chatgpt`) triggers the
fallback hop, but `routeRequest` ignores the `overridePlatform` option that
`handleFallback` sets, so the hop re-invokes `chatgpt` — the attempted
platforms are `[chatgpt, chatgpt]`, a duplicate.  (The termination half of
the claim does hold: the chain stops after 2 ≤ 8 invocations.) -/
theorem fallback_chain_repeats_platform :
    (processRequest cenvFail "hello" "u" {}).2 = ["chatgpt", "chatgpt"] ∧
    ¬ (processRequest cenvFail "hello" "u" {}).2.Nodup ∧
    (processRequest cenvFail "hello" "u" {}).2.length ≤ providerPlatforms.length := by
  refine ⟨rfl, ?_, ?_⟩ <;> decide

/-- C2: the claim says a failed request is retried once via the task's
configured secondary platform, then via its fallback platform, before the
terminal error response.  The code disagrees: for `"hello"` (task `general`,
secondary `deepseek`, fallback `local`) with every provider failing, the
single fallback hop re-invokes `chatgpt` (the `overridePlatform` passed by
`handleFallback` is ignored by `routeRequest`), `deepseek` and `local` are
never attempted, and the `isFallback` flag prevents any further hop; only
the terminal part of the claim holds (an error-carrying response, no
exception). -/
theorem fallback_never_reaches_secondary_or_tertiary :
    (routeRequest cenvFail "hello" "u" {}).secondary = some "deepseek" ∧
    (routeRequest cenvFail "hello" "u" {}).fallback = some "local" ∧
    (processRequest cenvFail "hello" "u" {}).2 = ["chatgpt", "chatgpt"] ∧
    "deepseek" ∉ (processRequest cenvFail "hello" "u" {}).2 ∧
    "local" ∉ (processRequest cenvFail "hello" "u" {}).2 ∧
    (processRequest cenvFail "hello" "u" {}).1.error = some "boom" := by
  refine ⟨rfl, rfl, rfl, ?_, ?_, rfl⟩ <;> decide

/-- C4: the claim says `processMultiPlatformRequest` dispatches each branch
to that branch's named platform, skips failed branches, and returns a canned
error response when all branches fail.  The code disagrees: the per-branch
`overridePlatform` is ignored by `routeRequest`, so a request for platform
`gemini` is dispatched to the task-routed `chatgpt`; and since
`processRequest` returns error-shaped objects instead of throwing, failed
branches are never skipped — with both branches failing, the merged response
carries the two branch failures and no `error` field at all. -/
theorem multiPlatform_dispatch_ignores_named_platforms :
    (processMultiPlatformRequest cenvOk "hello" "u" ["gemini"] {}).2 = ["chatgpt"] ∧
    "gemini" ∉ (processMultiPlatformRequest cenvOk "hello" "u" ["gemini"] {}).2 ∧
    (processMultiPlatformRequest cenvFail "hello" "u" ["gemini", "local"] {}).2 =
      ["chatgpt", "chatgpt"] ∧
    (processMultiPlatformRequest cenvFail "hello" "u" ["gemini", "local"] {}).1.error = none := by
  refine ⟨rfl, ?_, rfl, rfl⟩
  decide

/-- An environment whose learned classifier throws. -/
def cenvThrow : Env := { cenvFail with ml := .failure "classifier crashed" }

/-- C7 counterexample: the claim says a learned-classifier exception is
treated as low confidence, *falling through to the rule-based classifier*.
On input `"debug this"` the rule engine would return `code`, but with a
throwing classifier `classifyTask` returns `general`: the catch skips the
rule engine entirely. -/
theorem classifier_failure_skips_rule_engine :
    classifyTask cenvThrow "debug this" "u" = "general" ∧
    ruleBasedClassification "debug this" [] = "code" ∧
    ("general" : String) ≠ "code" := by
  refine ⟨rfl, rfl, ?_⟩
  decide

/-- C8 counterexample: the claim says `extractContent` returns a string for
*every* raw response value, including `null`, and never throws.  But on a
`null` response for platform `chatgpt` the guard `response.choices` itself
throws a `TypeError`. -/
theorem extractContent_throws_on_null :
    extractContent .vNull "chatgpt" = .error .typeError := rfl

/-- C9 counterexample: the claim says `RoutingDecision.platform` is always a
member of the configured provider set.  A user-preference override is copied
into the decision verbatim, so an unknown name escapes the set. -/
theorem routing_override_escapes_provider_set :
    (routeRequest cenvFail "hello" "u" prefOpts).platform = "notaplatform" ∧
    providerPlatforms.contains "notaplatform" = false := ⟨rfl, rfl⟩

/-! ### Prompt enhancement (C6) -/

/-- The thinking prompts for a `general`-task request. -/
def tpGen : ThinkingPrompts := generateThinkingPrompts "general" "hi"

/-- A base prompt with a single user message and no system message. -/
def basePrompt : ChatPrompt := ⟨[{ role := "user", content := "hi" }]⟩

set_option maxRecDepth 40000 in
/-- C6 counterexample: the claim says a second `enhanceChatGPTPrompt`
application neither adds a second system message nor re-prepends the
thinking system instruction.  In fact the second application finds the
system message installed by the first and prepends the instruction again:
its content becomes the system prompt twice over, so the double application
differs from the single one. -/
theorem enhance_twice_duplicates_system_instruction :
    enhanceChatGPTPrompt tpGen (enhanceChatGPTPrompt tpGen basePrompt) ≠
      enhanceChatGPTPrompt tpGen basePrompt ∧
    (enhanceChatGPTPrompt tpGen (enhanceChatGPTPrompt tpGen basePrompt)).messages.head? =
      some { role := "system", content := tpGen.systemPrompt ++ " " ++ tpGen.systemPrompt } := by
  refine ⟨?_, rfl⟩
  decide

def countSystem (msgs : List Message) : Nat :=
  (msgs.filter (fun m => m.role == "system")).length

def totalLen (msgs : List Message) : Nat :=
  (msgs.map (fun m => m.content.length)).sum

theorem roles_prependSysFirst (sp : String) (msgs : List Message) :
    (prependSysFirst sp msgs).map Message.role = msgs.map Message.role := by
  induction msgs with
  | nil => rfl
  | cons m rest ih =>
    unfold prependSysFirst
    split
    · rfl
    · simp [ih]

theorem roles_appendToLastUser (ti : String) (msgs : List Message) :
    (appendToLastUser ti msgs).map Message.role = msgs.map Message.role := by
  induction msgs with
  | nil => rfl
  | cons m rest ih =>
    unfold appendToLastUser
    split
    · simp [ih]
    · split
      · rfl
      · rfl

theorem any_system_eq (msgs : List Message) :
    (msgs.any fun m => m.role == "system") =
      ((msgs.map Message.role).any fun r => r == "system") := by
  induction msgs with
  | nil => rfl
  | cons m rest ih => simp [ih]

theorem countSystem_congr (msgs₁ msgs₂ : List Message)
    (h : msgs₁.map Message.role = msgs₂.map Message.role) :
    countSystem msgs₁ = countSystem msgs₂ := by
  induction msgs₁ generalizing msgs₂ with
  | nil =>
    cases msgs₂ with
    | nil => rfl
    | cons _ _ => simp at h
  | cons m rest ih =>
    cases msgs₂ with
    | nil => simp at h
    | cons m₂ rest₂ =>
      simp only [List.map_cons, List.cons.injEq] at h
      obtain ⟨h1, h2⟩ := h
      simp only [countSystem, List.filter_cons, h1]
      have := ih rest₂ h2
      simp only [countSystem] at this
      split <;> simp [this]

theorem any_system_enhanceSystemStep (sp : String) (msgs : List Message) :
    (enhanceSystemStep sp msgs).any (fun m => m.role == "system") = true := by
  unfold enhanceSystemStep
  split
  · rw [any_system_eq, roles_prependSysFirst, ← any_system_eq]
    assumption
  · simp

theorem totalLen_appendToLastUser (ti : String) (msgs : List Message) :
    totalLen msgs ≤ totalLen (appendToLastUser ti msgs) := by
  induction msgs with
  | nil => exact Nat.le_refl _
  | cons m rest ih =>
    unfold appendToLastUser
    split
    · simpa [totalLen] using ih
    · split
      · simp [totalLen, String.length_append]
        omega
      · exact Nat.le_refl _

theorem totalLen_prependSysFirst (sp : String) (msgs : List Message)
    (h : msgs.any (fun m => m.role == "system") = true) :
    totalLen (prependSysFirst sp msgs) = totalLen msgs + sp.length + 1 := by
  induction msgs with
  | nil => simp at h
  | cons m rest ih =>
    unfold prependSysFirst
    split
    · simp only [totalLen, List.map_cons, List.sum_cons, String.length_append,
        show (" " : String).length = 1 from rfl]
      omega
    · rename_i hrole
      simp only [List.any_cons, hrole, Bool.false_or] at h
      have hrest := ih h
      simp only [totalLen, List.map_cons, List.sum_cons] at hrest ⊢
      omega

/-- C6 amended claim: a second application of `enhanceChatGPTPrompt` adds no
second system message (the count of system-role messages is unchanged), but
it is not a no-op: it re-prepends the thinking system instruction into the
existing system message (and re-appends the thinking instructions to the
last user message), so enhancement is not idempotent. -/
theorem enhance_second_application_keeps_one_system_but_mutates
    (tp : ThinkingPrompts) (p : ChatPrompt) :
    countSystem (enhanceChatGPTPrompt tp (enhanceChatGPTPrompt tp p)).messages =
      countSystem (enhanceChatGPTPrompt tp p).messages ∧
    enhanceChatGPTPrompt tp (enhanceChatGPTPrompt tp p) ≠ enhanceChatGPTPrompt tp p := by
  have hq : ((enhanceChatGPTPrompt tp p).messages.any fun m => m.role == "system") = true := by
    show ((appendToLastUser _ _).any fun m => m.role == "system") = true
    rw [any_system_eq, roles_appendToLastUser, ← any_system_eq]
    exact any_system_enhanceSystemStep _ _
  have hstep : enhanceSystemStep tp.systemPrompt (enhanceChatGPTPrompt tp p).messages =
      prependSysFirst tp.systemPrompt (enhanceChatGPTPrompt tp p).messages := by
    unfold enhanceSystemStep
    rw [if_pos hq]
  constructor
  · show countSystem (appendToLastUser _ _) = _
    rw [hstep]
    refine (countSystem_congr _ _ ?_)
    rw [roles_appendToLastUser, roles_prependSysFirst]
  · intro heq
    have hlen : totalLen (enhanceChatGPTPrompt tp (enhanceChatGPTPrompt tp p)).messages =
        totalLen (enhanceChatGPTPrompt tp p).messages := by
      rw [heq]
    have hge : totalLen (prependSysFirst tp.systemPrompt (enhanceChatGPTPrompt tp p).messages) ≤
        totalLen (enhanceChatGPTPrompt tp (enhanceChatGPTPrompt tp p)).messages := by
      show _ ≤ totalLen (appendToLastUser _ _)
      rw [hstep]
      exact totalLen_appendToLastUser _ _
    rw [totalLen_prependSysFirst _ _ hq] at hge
    omega

/-! ### Classification (C5, C7) -/

/-- Evaluation of `classifyTask` by classifier outcome: exceptions are caught
into `general` (bypassing the rule engine); an uninitialized or
low-confidence classifier falls through to the rule engine. -/
theorem classifyTask_eval (env : Env) (userInput userId : String) :
    (∀ m, env.ml = .failure m → classifyTask env userInput userId = "general") ∧
    (env.ml = .unavailable →
      classifyTask env userInput userId =
        ruleBasedClassification userInput (getContext env "chatgpt")) ∧
    (∀ t c, env.ml = .result t c → ¬ c > env.threshold →
      classifyTask env userInput userId =
        ruleBasedClassification userInput (getContext env "chatgpt")) := by
  refine ⟨?_, ?_, ?_⟩
  · intro m hm
    simp [classifyTask, classifyTaskE, hm]
  · intro hm
    simp [classifyTask, classifyTaskE, hm, pure, Except.pure]
  · intro t c hm hc
    simp [classifyTask, classifyTaskE, hm, if_neg hc, pure, Except.pure]

/-- C7 amended claim: `classifyTask` never raises (it is total), and a
learned-classifier exception is caught with `classifyTask` returning
`general` directly — it does *not* fall through to the rule-based
classifier; the rule engine is reached only when the classifier is
uninitialized or insufficiently confident. -/
theorem classifyTask_never_raises_catch_returns_general (env : Env) (userInput userId : String) :
    (∀ m, env.ml = .failure m → classifyTask env userInput userId = "general") ∧
    (env.ml = .unavailable →
      classifyTask env userInput userId =
        ruleBasedClassification userInput (getContext env "chatgpt")) ∧
    (∀ t c, env.ml = .result t c → ¬ c > env.threshold →
      classifyTask env userInput userId =
        ruleBasedClassification userInput (getContext env "chatgpt")) :=
  classifyTask_eval env userInput userId

/-- Witness for C7's amended theorem at a concrete environment and input. -/
theorem classifyTask_never_raises_catch_returns_general_witness :
    classifyTask cenvThrow "what is love" "u" = "general" :=
  (classifyTask_never_raises_catch_returns_general cenvThrow "what is love" "u").1
    "classifier crashed" rfl

theorem isPrefixOf_map_toLower :
    ∀ (p s : List Char), (∀ c ∈ p, c.toLower = c) → p.isPrefixOf s = true →
      p.isPrefixOf (s.map Char.toLower) = true
  | [], _, _, _ => by simp [List.isPrefixOf]
  | a :: p', [], _, h => by simp [List.isPrefixOf] at h
  | a :: p', b :: s', hp, h => by
      simp only [List.map_cons, List.isPrefixOf, Bool.and_eq_true, beq_iff_eq] at h ⊢
      obtain ⟨hab, h2⟩ := h
      subst hab
      exact ⟨(hp a (by simp)).symm,
        isPrefixOf_map_toLower p' s' (fun c hc => hp c (by simp [hc])) h2⟩

theorem containsSub_cons (c : Char) (s : List Char) (sub : String) :
    containsSub (c :: s) sub = (sub.toList.isPrefixOf (c :: s) || containsSub s sub) := by
  simp [containsSub]

theorem containsSub_map_toLower (s : List Char) (sub : String)
    (hsub : ∀ c ∈ sub.toList, c.toLower = c)
    (h : containsSub s sub = true) : containsSub (s.map Char.toLower) sub = true := by
  induction s with
  | nil => simpa [containsSub] using h
  | cons c rest ih =>
    rw [List.map_cons, containsSub_cons]
    rw [containsSub_cons] at h
    rcases Bool.or_eq_true_iff.mp h with hpre | hrest
    · have hthis := isPrefixOf_map_toLower sub.toList (c :: rest) hsub hpre
      rw [List.map_cons] at hthis
      rw [hthis]
      rfl
    · rw [ih hrest]
      simp only [Bool.or_true]

/-- C5: for any input containing the substring `debug`, or whose lowercased
text contains a fenced code-block marker (the `/```[a-z]*\n/` pattern the
source tests), task classification returns `code` whenever the learned
classifier is uninitialized or reports confidence not exceeding the
threshold: those cases fall through to the rule engine, whose first
(code) rule fires. -/
theorem classify_code_keyword_inputs (env : Env) (userInput userId : String)
    (hml : env.ml = .unavailable ∨ ∃ t c, env.ml = .result t c ∧ ¬ c > env.threshold)
    (hkw : containsSub userInput.toList "debug" = true ∨
           hasCodeFence (lowered userInput) = true) :
    classifyTask env userInput userId = "code" := by
  have hrule : ruleBasedClassification userInput (getContext env "chatgpt") = "code" := by
    unfold ruleBasedClassification
    rcases hkw with hkw | hkw
    · have hlow : containsSub (lowered userInput) "debug" = true := by
        unfold lowered
        exact containsSub_map_toLower _ _ (by decide) hkw
      simp [hlow]
    · simp [hkw]
  rcases hml with hml | ⟨t, c, hml, hc⟩
  · rw [(classifyTask_eval env userInput userId).2.1 hml]
    exact hrule
  · rw [(classifyTask_eval env userInput userId).2.2 t c hml hc]
    exact hrule

/-- Witness for C5 at a concrete environment and input. -/
theorem classify_code_keyword_inputs_witness :
    classifyTask cenvFail "please debug this" "u" = "code" :=
  classify_code_keyword_inputs cenvFail "please debug this" "u" (Or.inl rfl)
    (Or.inl (by decide))

/-! ### Context trimming (C3) -/

/-- Cumulative estimated token count of a list of turns. -/
def contextTokens (context : List Turn) : ℚ :=
  (context.map turnTokens).sum

theorem optimizeAux_isPre (contextWindowSize : ℚ) (l : List Turn) (total : ℚ) :
    optimizeAux contextWindowSize l total <+: l := by
  induction l generalizing total with
  | nil => simp [optimizeAux]
  | cons t rest ih =>
    unfold optimizeAux
    split
    · exact List.nil_prefix
    · exact List.cons_prefix_cons.mpr ⟨rfl, ih _⟩

theorem optimizeAux_sum (contextWindowSize : ℚ) (l : List Turn) (total : ℚ)
    (h : total ≤ contextWindowSize * (9 / 10)) :
    total + ((optimizeAux contextWindowSize l total).map turnTokens).sum ≤
      contextWindowSize * (9 / 10) := by
  induction l generalizing total with
  | nil => simpa [optimizeAux] using h
  | cons t rest ih =>
    unfold optimizeAux
    split
    · simpa using h
    · rename_i hle
      have h2 : total + turnTokens t ≤ contextWindowSize * (9 / 10) := le_of_not_lt hle
      have h3 := ih (total + turnTokens t) h2
      simp only [List.map_cons, List.sum_cons]
      linarith

/-- C3: for any conversation whose cumulative token estimate exceeds
`0.9 × contextWindowSize` (with a nonnegative window size, as every
configured window is), `optimizeContext` returns a contiguous suffix of the
input — hence in the original chronological order — whose cumulative
estimate is at most `0.9 × contextWindowSize`. -/
theorem optimizeContext_bounded_suffix (context : List Turn) (contextWindowSize : ℚ)
    (hcw : 0 ≤ contextWindowSize)
    (_hover : contextTokens context > contextWindowSize * (9 / 10)) :
    optimizeContext context contextWindowSize <:+ context ∧
      contextTokens (optimizeContext context contextWindowSize) ≤
        contextWindowSize * (9 / 10) := by
  constructor
  · unfold optimizeContext
    have hp := optimizeAux_isPre contextWindowSize context.reverse 0
    have hs := List.reverse_suffix.mpr hp
    simpa using hs
  · unfold optimizeContext contextTokens
    have hcap : (0 : ℚ) ≤ contextWindowSize * (9 / 10) := by
      have : (0 : ℚ) ≤ (9 / 10 : ℚ) := by norm_num
      exact mul_nonneg hcw this
    have hs := optimizeAux_sum contextWindowSize context.reverse 0 hcap
    simpa [List.map_reverse, List.sum_reverse] using hs

/-- A turn whose token estimate (13) exceeds 90% of a window of 10. -/
def turnBig : Turn := { userInput := "a b c d e f g h i j", aiResponse := "" }

theorem turnBig_tokens : contextTokens [turnBig] = 13 := by
  have h1 : splitWsLen "a b c d e f g h i j" = 10 := rfl
  simp [contextTokens, turnBig, turnTokens, estimateTokens, h1,
    show ("" : String).isEmpty = true from rfl,
    show ("a b c d e f g h i j" : String).isEmpty = false from rfl]
  norm_num

/-- Witness for C3 at a concrete conversation and window size. -/
theorem optimizeContext_bounded_suffix_witness :
    (0 : ℚ) ≤ 10 ∧ contextTokens [turnBig] > 10 * (9 / 10) ∧
      (optimizeContext [turnBig] 10 <:+ [turnBig] ∧
        contextTokens (optimizeContext [turnBig] 10) ≤ 10 * (9 / 10)) :=
  ⟨by norm_num, by rw [turnBig_tokens]; norm_num,
    optimizeContext_bounded_suffix [turnBig] 10 (by norm_num)
      (by rw [turnBig_tokens]; norm_num)⟩

/-! ### Defensive extraction (C8) -/

theorem getField_ok (v : JsValue) (k : String) (h1 : v ≠ .vNull) (h2 : v ≠ .vUndef) :
    v.getField k = .ok (v.fieldD k) := by
  cases v
  · exact absurd rfl h1
  · exact absurd rfl h2
  all_goals rfl

theorem truthy_getField_ok (v : JsValue) (k : String) (h : v.truthy = true) :
    v.getField k = .ok (v.fieldD k) := by
  cases v <;> simp [JsValue.truthy] at h <;> rfl

theorem stringFallback_isString (v : JsValue) (h2 : v ≠ .vUndef) :
    (stringFallback v).isString = true := by
  cases v
  case vUndef => exact absurd rfl h2
  all_goals rfl

theorem choicesGuard_eval (v : JsValue) (h1 : v ≠ .vNull) (h2 : v ≠ .vUndef) :
    choicesGuard v =
      .ok ((v.fieldD "choices").truthy && gtZero ((v.fieldD "choices").fieldD "length")) := by
  unfold choicesGuard
  rw [getField_ok v _ h1 h2]
  simp only [bind, Except.bind]
  cases hc : (v.fieldD "choices").truthy
  · simp [hc, pure, Except.pure]
  · rw [truthy_getField_ok _ _ hc]
    simp [hc, bind, Except.bind, pure, Except.pure]

theorem extractChatGPT_guard_false (v : JsValue) (h1 : v ≠ .vNull) (h2 : v ≠ .vUndef)
    (hg : ((v.fieldD "choices").truthy && gtZero ((v.fieldD "choices").fieldD "length")) = false) :
    extractChatGPTContent v = .ok (stringFallback v) := by
  unfold extractChatGPTContent
  rw [choicesGuard_eval v h1 h2]
  simp [hg, bind, Except.bind, pure, Except.pure]

theorem extractCopilot_guard_false (v : JsValue) (h1 : v ≠ .vNull) (h2 : v ≠ .vUndef)
    (hg : ((v.fieldD "choices").truthy && gtZero ((v.fieldD "choices").fieldD "length")) = false) :
    extractCopilotContent v = .ok (stringFallback v) := by
  unfold extractCopilotContent
  rw [choicesGuard_eval v h1 h2]
  simp [hg, bind, Except.bind, pure, Except.pure]

theorem extractDeepSeek_guard_false (v : JsValue) (h1 : v ≠ .vNull) (h2 : v ≠ .vUndef)
    (hg : ((v.fieldD "choices").truthy && gtZero ((v.fieldD "choices").fieldD "length")) = false) :
    extractDeepSeekContent v = .ok (stringFallback v) := by
  unfold extractDeepSeekContent
  rw [choicesGuard_eval v h1 h2]
  simp [hg, bind, Except.bind, pure, Except.pure]

theorem extractPerplexity_guard_false (v : JsValue) (h1 : v ≠ .vNull) (h2 : v ≠ .vUndef)
    (hg : (v.fieldD "answer").truthy = false) :
    extractPerplexityContent v = .ok (stringFallback v) := by
  unfold extractPerplexityContent
  rw [getField_ok v _ h1 h2]
  simp [hg, bind, Except.bind, pure, Except.pure]

theorem extractGemini_guard_false (v : JsValue) (h1 : v ≠ .vNull) (h2 : v ≠ .vUndef)
    (hg : ((v.fieldD "candidates").truthy && gtZero ((v.fieldD "candidates").fieldD "length")) = false) :
    extractGeminiContent v = .ok (stringFallback v) := by
  unfold extractGeminiContent
  rw [getField_ok v _ h1 h2]
  simp only [bind, Except.bind]
  cases hc : (v.fieldD "candidates").truthy
  · simp [hc, bind, Except.bind, pure, Except.pure]
  · rw [truthy_getField_ok _ _ hc]
    rw [hc, Bool.true_and] at hg
    simp [hg, bind, Except.bind, pure, Except.pure]

theorem extractGrok3_guard_false (v : JsValue) (h1 : v ≠ .vNull) (h2 : v ≠ .vUndef)
    (hg : ((v.fieldD "output").truthy && ((v.fieldD "output").fieldD "content").truthy) = false) :
    extractGrok3Content v = .ok (stringFallback v) := by
  unfold extractGrok3Content
  rw [getField_ok v _ h1 h2]
  simp only [bind, Except.bind]
  cases hc : (v.fieldD "output").truthy
  · simp [hc, bind, Except.bind, pure, Except.pure]
  · rw [truthy_getField_ok _ _ hc]
    rw [hc, Bool.true_and] at hg
    simp [hg, bind, Except.bind, pure, Except.pure]

theorem extractVertix_guard_false (v : JsValue) (h1 : v ≠ .vNull) (h2 : v ≠ .vUndef)
    (hg : (v.fieldD "content").truthy = false) :
    extractVertixContent v = .ok (stringFallback v) := by
  unfold extractVertixContent
  rw [getField_ok v _ h1 h2]
  simp [hg, bind, Except.bind, pure, Except.pure]

theorem extractLocal_guard_false (v : JsValue) (h1 : v ≠ .vNull) (h2 : v ≠ .vUndef)
    (hg : (v.fieldD "output").truthy = false) :
    extractLocalContent v = .ok (stringFallback v) := by
  unfold extractLocalContent
  rw [getField_ok v _ h1 h2]
  simp [hg, bind, Except.bind, pure, Except.pure]

/-- C8 amended claim: for every raw response other than `null`/`undefined`
whose top-level structural guard fails, `extractContent` returns the
stringified raw response — a string — without throwing; but a
`null`/`undefined` response throws a `TypeError` in the guard itself (see
the counterexample), as can a guard-passing response with missing nested
fields. -/
theorem extractContent_mismatch_stringifies (v : JsValue) (platform : String)
    (h1 : v ≠ .vNull) (h2 : v ≠ .vUndef) (hg : extractGuard v platform = false) :
    extractContent v platform = .ok (stringFallback v) ∧
      (stringFallback v).isString = true := by
  refine ⟨?_, stringFallback_isString v h2⟩
  unfold extractContent
  split
  · exact extractChatGPT_guard_false v h1 h2 (by simpa [extractGuard] using hg)
  · exact extractPerplexity_guard_false v h1 h2 (by simpa [extractGuard] using hg)
  · exact extractGemini_guard_false v h1 h2 (by simpa [extractGuard] using hg)
  · exact extractCopilot_guard_false v h1 h2 (by simpa [extractGuard] using hg)
  · exact extractDeepSeek_guard_false v h1 h2 (by simpa [extractGuard] using hg)
  · exact extractGrok3_guard_false v h1 h2 (by simpa [extractGuard] using hg)
  · exact extractVertix_guard_false v h1 h2 (by simpa [extractGuard] using hg)
  · exact extractLocal_guard_false v h1 h2 (by simpa [extractGuard] using hg)
  · rfl

/-- A response whose shape matches no platform's expected structure. -/
def mismatchRaw : JsValue := .vObj [("foo", .vStr "x")]

/-- Witness for C8's amended theorem at a concrete mismatched response. -/
theorem extractContent_mismatch_stringifies_witness :
    extractContent mismatchRaw "chatgpt" = .ok (stringFallback mismatchRaw) ∧
      (stringFallback mismatchRaw).isString = true :=
  extractContent_mismatch_stringifies mismatchRaw "chatgpt"
    (fun h => JsValue.noConfusion h) (fun h => JsValue.noConfusion h) rfl

/-- The guard is coercing, exactly as in JavaScript: for
`{choices: {length: "5"}}` the guard `response.choices &&
response.choices.length > 0` passes (`"5" > 0` is true after `ToNumber`),
and the subsequent unguarded access `choices[0].message` throws — such
values lie outside the guard-failing domain of
the stringification property above. -/
theorem extractContent_coercing_guard_passes_then_throws :
    extractGuard (.vObj [("choices", .vObj [("length", .vStr "5")])]) "chatgpt" = true ∧
    extractContent (.vObj [("choices", .vObj [("length", .vStr "5")])]) "chatgpt" =
      .error .typeError := ⟨rfl, rfl⟩

/-! ### Routing membership and pre-dispatch rejection (C9) -/

theorem platformMapping_primary_mem (taskType : String) :
    providerPlatforms.contains (platformMapping taskType).primary = true := by
  unfold platformMapping
  split <;> rfl

theorem platformMapping_fallback_mem (taskType : String) :
    providerPlatforms.contains (platformMapping taskType).fallback = true := by
  unfold platformMapping
  split <;> rfl

/-- Re-routing during a fallback hop sees the same option fields (only
`isFallback`, `isFallbackSecondary` and `overridePlatform` change, none of
which `routeRequest` reads), so it produces the same decision. -/
theorem routeRequest_fallback_opts (env : Env) (userInput userId : String)
    (opts : Options) (fb : Option String) :
    routeRequest env userInput userId
      { opts with isFallback := true,
                  isFallbackSecondary := !opts.isFallbackSecondary,
                  overridePlatform := fb } =
      routeRequest env userInput userId opts := rfl

/-- C9 amended claim: without a user-preference override the selected
platform is always a member of the configured provider set; a user override
is copied into the RoutingDecision verbatim — even a name outside the set
(see the counterexample) — but any platform outside the set is rejected by
`getPlatformModule` before provider dispatch: no provider is invoked at any
point of such a request, fallback hop included. -/
theorem routing_membership_and_predispatch_rejection :
    (∀ (taskType : String) (opts : Options), userPrefOverride opts = none →
      providerPlatforms.contains (getPlatformForTask taskType opts).platform = true) ∧
    (∀ (env : Env) (userInput userId : String) (opts : Options),
      providerPlatforms.contains (routeRequest env userInput userId opts).platform = false →
      (processRequest env userInput userId opts).2 = []) := by
  constructor
  · intro taskType opts hover
    unfold getPlatformForTask
    simp only [hover]
    split
    · exact platformMapping_fallback_mem taskType
    · exact platformMapping_primary_mem taskType
  · intro env userInput userId opts hmem
    have hmod : getPlatformModule (routeRequest env userInput userId opts).platform = none := by
      unfold getPlatformModule
      rw [hmem]
      rfl
    have hatt : attemptRequest env userInput userId opts =
        (.error ("Platform module not found for " ++
          (routeRequest env userInput userId opts).platform), []) := by
      unfold attemptRequest
      dsimp only
      rw [hmod]
    have hatt2 : ∀ fb, attemptRequest env userInput userId
        { opts with isFallback := true,
                    isFallbackSecondary := !opts.isFallbackSecondary,
                    overridePlatform := fb } =
        (.error ("Platform module not found for " ++
          (routeRequest env userInput userId opts).platform), []) := by
      intro fb
      unfold attemptRequest
      dsimp only
      rw [routeRequest_fallback_opts, hmod]
    show (processRequestFuel env userInput userId 2 opts).2 = []
    unfold processRequestFuel
    rw [hatt]
    simp only []
    split
    · rw [processRequestFuel_isFallback_true env userInput userId 0 _ rfl]
      rw [hatt2]
      rfl
    · rfl

/-- Witness for C9's amended theorem at concrete inputs: default options get
an in-set platform, and an out-of-set override leads to an empty provider
trace. -/
theorem routing_membership_and_predispatch_rejection_witness :
    providerPlatforms.contains (getPlatformForTask "code" {}).platform = true ∧
    (processRequest cenvFail "hello" "u" prefOpts).2 = [] :=
  ⟨routing_membership_and_predispatch_rejection.1 "code" {} rfl,
   routing_membership_and_predispatch_rejection.2 cenvFail "hello" "u" prefOpts rfl⟩

/-! ### Override/cost branches carry no fallbacks (C10) -/

/-- C10: whenever `getPlatformForTask` takes the user-preference override
branch or the cost-optimization branch, the object it returns — and hence
the RoutingDecision built by `routeRequest` — carries no secondary and no
fallback platform, so a fallback attempt for such a request resolves its
fallback platform to `undefined` (`none`), whichever hop it is on. -/
theorem override_and_cost_branches_have_no_fallbacks (taskType : String) (opts : Options)
    (env : Env) (userInput userId : String)
    (h : userPrefOverride opts ≠ none ∨
         (userPrefOverride opts = none ∧ opts.optimizeCost = true ∧ opts.isPremiumUser = false)) :
    (getPlatformForTask taskType opts).secondary = none ∧
    (getPlatformForTask taskType opts).fallback = none ∧
    (routeRequest env userInput userId opts).secondary = none ∧
    (routeRequest env userInput userId opts).fallback = none ∧
    (∀ opts2 : Options,
      fallbackPlatformChoice (routeRequest env userInput userId opts) opts2 = none) := by
  have hinfo : ∀ tt : String, (getPlatformForTask tt opts).secondary = none ∧
      (getPlatformForTask tt opts).fallback = none := by
    intro tt
    unfold getPlatformForTask
    rcases h with h | ⟨h0, h1, h2⟩
    · cases hov : userPrefOverride opts with
      | none => exact absurd hov h
      | some p => exact ⟨rfl, rfl⟩
    · rw [h0, h1, h2]
      exact ⟨rfl, rfl⟩
  refine ⟨(hinfo taskType).1, (hinfo taskType).2, (hinfo _).1, (hinfo _).2, ?_⟩
  intro opts2
  unfold fallbackPlatformChoice
  split
  · exact (hinfo _).2
  · exact (hinfo _).1

/-- Options carrying an in-set user-preferred platform. -/
def prefOptsG : Options := { userPreferences := some { preferredPlatform := some "gemini" } }

/-- Witness for C10 at a concrete override request. -/
theorem override_and_cost_branches_have_no_fallbacks_witness :
    (getPlatformForTask "code" prefOptsG).secondary = none ∧
    (getPlatformForTask "code" prefOptsG).fallback = none ∧
    (routeRequest cenvFail "hi" "u" prefOptsG).secondary = none ∧
    (routeRequest cenvFail "hi" "u" prefOptsG).fallback = none ∧
    (∀ opts2 : Options,
      fallbackPlatformChoice (routeRequest cenvFail "hi" "u" prefOptsG) opts2 = none) :=
  override_and_cost_branches_have_no_fallbacks "code" prefOptsG cenvFail "hi" "u"
    (Or.inl (by decide))

end Majd
